import Mathlib

/-!
Shallow embedding of the BLE device-recovery orchestrator
`clearBluetoothCacheForDevice` (src/src/ble/device-manager.js and the
fuller variant in src/unnamed/part_000; both files define the same
function, the unnamed variant's step 3 additionally sweeps service-worker
caches, IndexedDB and the two web storages — we embed the fuller variant;
steps 1, 2, 4 and 5 are textually identical in both).

The JS function is async: it runs five sequential steps, steps 1 and 2
fanning out one async wrapper per target device and joining them with
`Promise.all`.  We model a run as a deterministic function from an
environment (device connection state, which operations throw, which
platform capabilities exist, storage contents) to a `RunResult`: an event
trace, the JS return value, and the final contents of the two storages.
Within a `Promise.all` phase the real interleaving of sibling wrappers is
unspecified; the model linearises siblings in registry order, which is
faithful for the properties below (per-device event counts, each device's
own internal order, and the cross-phase barrier enforced by the awaited
`Promise.all` / sequential `await`s).  Purely informational `console.log`
lines are not modelled; `console.warn`/`console.error` calls that mark a
caught failure are modelled as events.
-/

/-- The six device roles, from the `Device` enum usage (enums.js itself is
not under src/; the spec fixes the closed six-element set). -/
inductive DeviceRole
| controllable
| heartRateMonitor
| powerMeter
| speedCadenceSensor
| moxy
| coreTemp
deriving DecidableEq, Repr

/-- JavaScript values as far as the function inspects them: the
`deviceType` argument is tested for truthiness and compared with `===`
against device-type enum values. -/
inductive JSVal
| null
| undef
| bool (b : Bool)
| num (n : Int)
| str (s : String)
| role (r : DeviceRole)
deriving DecidableEq, Repr

/-- JS truthiness of the modelled values (`NaN` is not modelled; the
falsy values relevant here are null, undefined, false, 0, ""). -/
def JSVal.truthy : JSVal → Bool
| .null => false
| .undef => false
| .bool b => b
| .num n => n != 0
| .str s => s != ""
| .role _ => true

/-- A managed device singleton: `getDeviceType()` returns its role enum
value, `getName()` its display name (names appear only in log strings). -/
structure DeviceInstance where
  drole : DeviceRole
  dname : String
deriving DecidableEq, Repr

/-- The fixed registry `allDevices` from the source module. -/
def allDevices : List DeviceInstance :=
  [ ⟨.controllable, "controllable"⟩
  , ⟨.heartRateMonitor, "heartRateMonitor"⟩
  , ⟨.powerMeter, "powerMeter"⟩
  , ⟨.speedCadenceSensor, "speedCadenceSensor"⟩
  , ⟨.moxy, "moxy"⟩
  , ⟨.coreTemp, "coreTemp"⟩ ]

/-- One cached pairing record returned by `navigator.bluetooth.getDevices()`,
with the behaviour flags the sweep can observe. -/
structure CachedDevice where
  cid : String
  gattPresent : Bool
  gattConnected : Bool
  gattDisconnectThrows : Bool
  forgetSupported : Bool
  forgetThrows : Bool
deriving DecidableEq, Repr

/-- The environment a run executes against: per-device transport state and
fault behaviour, and the optional platform capabilities of step 3/4. -/
structure Env where
  connected : DeviceRole → Bool
  disconnectThrows : DeviceRole → Bool
  forgetThrows : DeviceRole → Bool
  bluetoothInNavigator : Bool
  getDevicesAvailable : Bool
  getDevicesThrows : Bool
  cachedDevices : List CachedDevice
  cachesInWindow : Bool
  cachesThrows : Bool
  cacheNames : List String
  indexedDBInWindow : Bool
  databasesThrows : Bool
  dbNames : List String
  localStorageThrows : Bool
  sessionStorageThrows : Bool
  localStorageKV : List (String × String)
  sessionStorageKV : List (String × String)
  windowGc : Bool

/-- Observable events of a run, in trace order. -/
inductive Event
| warnNoDevices
| disconnectCall (r : DeviceRole)
| errorDisconnect (r : DeviceRole)
| settle500 (r : DeviceRole)
| forgetCall (r : DeviceRole)
| errorForget (r : DeviceRole)
| gattDisconnectCall (id : String)
| browserForgetCall (id : String)
| errorCachedDevice (id : String)
| cacheDelete (nm : String)
| warnIdb
| dbDelete (nm : String)
| lsRemove (k : String)
| ssRemove (k : String)
| warnStorage
| warnStep3
| clearTimeouts
| gcCall
| settle1000
deriving DecidableEq, Repr

/-- Result of a run: the event trace, the JS return value, and the final
contents of localStorage and sessionStorage. -/
structure RunResult where
  trace : List Event
  result : JSVal
  localStorageKV : List (String × String)
  sessionStorageKV : List (String × String)
deriving DecidableEq, Repr

/-- Target resolution: `deviceType ? allDevices.filter(i =>
i.getDeviceType() === deviceType) : allDevices`. -/
def devicesToClear (devices : List DeviceInstance) (deviceType : JSVal) :
    List DeviceInstance :=
  if deviceType.truthy then
    devices.filter (fun d => JSVal.role d.drole == deviceType)
  else devices

/-- Step 1 wrapper for one device: `if isConnected() then await disconnect();
await 500ms` inside a try/catch — the 500ms wait is skipped when
`disconnect()` throws, and nothing happens for a disconnected device. -/
def phase1Events (env : Env) (d : DeviceInstance) : List Event :=
  if env.connected d.drole then
    if env.disconnectThrows d.drole then
      [.disconnectCall d.drole, .errorDisconnect d.drole]
    else
      [.disconnectCall d.drole, .settle500 d.drole]
  else []

/-- Step 2 wrapper for one device: `await forgetDevice()` in a try/catch. -/
def phase2Events (env : Env) (d : DeviceInstance) : List Event :=
  if env.forgetThrows d.drole then
    [.forgetCall d.drole, .errorForget d.drole]
  else
    [.forgetCall d.drole]

/-- Per-record handling inside the step-3 loop, each record in its own
try/catch: gatt force-disconnect if live, then browser-level forget if
supported; a throw inside the record's try skips the rest of that record
only. -/
def cachedDeviceEvents (cd : CachedDevice) : List Event :=
  if cd.gattPresent && cd.gattConnected then
    if cd.gattDisconnectThrows then
      [.gattDisconnectCall cd.cid, .errorCachedDevice cd.cid]
    else
      [.gattDisconnectCall cd.cid] ++
        (if cd.forgetSupported then
          if cd.forgetThrows then
            [.browserForgetCall cd.cid, .errorCachedDevice cd.cid]
          else [.browserForgetCall cd.cid]
        else [])
  else
    (if cd.forgetSupported then
      if cd.forgetThrows then
        [.browserForgetCall cd.cid, .errorCachedDevice cd.cid]
      else [.browserForgetCall cd.cid]
    else [])

/-- Substring test on character lists (any suffix has the needle as a
proper head segment). -/
def hasSub : List Char → List Char → Bool
| [], needle => needle.isEmpty
| c :: rest, needle => needle.isPrefixOf (c :: rest) || hasSub rest needle

/-- Lower-case a key character-wise (ASCII; the keys this model ranges
over are ASCII, as in the source's own key names). -/
def lowerChars (k : String) : List Char :=
  k.data.map Char.toLower

/-- Key predicate of the storage purge:
`key.toLowerCase().includes('bluetooth') || ...('ble') || ...('device')`. -/
def isBleKey (k : String) : Bool :=
  hasSub (lowerChars k) "bluetooth".data ||
  hasSub (lowerChars k) "ble".data ||
  hasSub (lowerChars k) "device".data

/-- Database-name predicate of the IndexedDB sub-step:
`db.name && (db.name.includes('bluetooth') || db.name.includes('ble'))` —
note: not lowercased and without 'device', unlike the storage predicate. -/
def isBleDbName (n : String) : Bool :=
  n != "" && (hasSub n.data "bluetooth".data || hasSub n.data "ble".data)

/-- `removeItem`: drop the entry with the given key. -/
def removeItem (store : List (String × String)) (k : String) :
    List (String × String) :=
  store.filter (fun kv => kv.1 != k)

/-- The storage purge for one store: collect the keys, filter the
BLE-related ones, remove each. -/
def purgeStore (store : List (String × String)) : List (String × String) :=
  ((store.map Prod.fst).filter isBleKey).foldl removeItem store

/-- Removal events the purge of one store emits. -/
def purgeEvents (store : List (String × String)) (mk : String → Event) :
    List Event :=
  ((store.map Prod.fst).filter isBleKey).map mk

/-- Events of the `getDevices()` record loop (runs only when the API is
present and the enumeration call did not throw). -/
def sweepRecordsEvents (env : Env) : List Event :=
  if env.bluetoothInNavigator && env.getDevicesAvailable then
    (env.cachedDevices.map cachedDeviceEvents).flatten
  else []

/-- Events of the service-worker cache purge (`caches.keys()` then delete
every named cache). -/
def sweepCachesEvents (env : Env) : List Event :=
  if env.cachesInWindow then env.cacheNames.map Event.cacheDelete else []

/-- Events of the IndexedDB sub-step (own try/catch): enumerate databases
and delete every one whose name matches `isBleDbName`. -/
def sweepIdbEvents (env : Env) : List Event :=
  if env.indexedDBInWindow then
    if env.databasesThrows then [.warnIdb]
    else (env.dbNames.filter isBleDbName).map Event.dbDelete
  else []

/-- Step 3, the platform cache sweep.  One outer try wraps the whole step;
inside it, the per-record loop bodies, the IndexedDB block and the
storage block each carry their own try/catch, but the `getDevices()`
enumeration and the service-worker cache purge do not: a throw there is
caught only by the outer catch (event `warnStep3`) and skips every
remaining sub-step of the sweep.  Returns the sweep events and the final
storage contents. -/
def sweep (env : Env) : List Event × List (String × String) × List (String × String) :=
  if env.bluetoothInNavigator && env.getDevicesAvailable && env.getDevicesThrows then
    ([.warnStep3], env.localStorageKV, env.sessionStorageKV)
  else
    if env.cachesInWindow && env.cachesThrows then
      (sweepRecordsEvents env ++ [.warnStep3],
       env.localStorageKV, env.sessionStorageKV)
    else
      if env.localStorageThrows then
        (sweepRecordsEvents env ++ sweepCachesEvents env ++ sweepIdbEvents env
           ++ [.warnStorage],
         env.localStorageKV, env.sessionStorageKV)
      else if env.sessionStorageThrows then
        (sweepRecordsEvents env ++ sweepCachesEvents env ++ sweepIdbEvents env
           ++ purgeEvents env.localStorageKV Event.lsRemove ++ [.warnStorage],
         purgeStore env.localStorageKV, env.sessionStorageKV)
      else
        (sweepRecordsEvents env ++ sweepCachesEvents env ++ sweepIdbEvents env
           ++ purgeEvents env.localStorageKV Event.lsRemove
           ++ purgeEvents env.sessionStorageKV Event.ssRemove,
         purgeStore env.localStorageKV, purgeStore env.sessionStorageKV)

/-- The whole function, parametric in the device list it closes over (the
source closes over the module constant `allDevices`; the registry is a
parameter here so the spec's small test registries can be instantiated).
Empty target set: warn and return (undefined).  Otherwise the five steps
run in sequence, each `Promise.all` phase joined before the next, and the
function returns undefined after the final 1s wait. -/
def clearForDevices (env : Env) (devices : List DeviceInstance)
    (deviceType : JSVal) : RunResult :=
  let targets := devicesToClear devices deviceType
  if targets.length = 0 then
    { trace := [.warnNoDevices], result := .undef,
      localStorageKV := env.localStorageKV,
      sessionStorageKV := env.sessionStorageKV }
  else
    let ev1 := (targets.map (phase1Events env)).flatten
    let ev2 := (targets.map (phase2Events env)).flatten
    let sw := sweep env
    let ev4 := [Event.clearTimeouts] ++ (if env.windowGc then [Event.gcCall] else [])
    { trace := ev1 ++ ev2 ++ sw.1 ++ ev4 ++ [.settle1000],
      result := .undef,
      localStorageKV := sw.2.1,
      sessionStorageKV := sw.2.2 }

/-- `clearBluetoothCacheForDevice(deviceType = null)` over the fixed
registry. -/
def clearBluetoothCacheForDevice (env : Env) (deviceType : JSVal) : RunResult :=
  clearForDevices env allDevices deviceType

/-! Helper classifiers and concrete environments. -/

/-- Events emitted only by a step-1 wrapper. -/
def Event.phase1ish : Event → Bool
| .disconnectCall _ => true
| .errorDisconnect _ => true
| .settle500 _ => true
| _ => false

/-- Events emitted only by a step-2 wrapper. -/
def Event.phase2ish : Event → Bool
| .forgetCall _ => true
| .errorForget _ => true
| _ => false

/-- Events emitted only by the step-3 sweep. -/
def Event.sweepish : Event → Bool
| .gattDisconnectCall _ => true
| .browserForgetCall _ => true
| .errorCachedDevice _ => true
| .cacheDelete _ => true
| .warnIdb => true
| .dbDelete _ => true
| .lsRemove _ => true
| .ssRemove _ => true
| .warnStorage => true
| .warnStep3 => true
| _ => false

/-- A quiet environment: nothing connected, nothing throws, no optional
platform capability present, empty storages. -/
def baseEnv : Env where
  connected := fun _ => false
  disconnectThrows := fun _ => false
  forgetThrows := fun _ => false
  bluetoothInNavigator := false
  getDevicesAvailable := false
  getDevicesThrows := false
  cachedDevices := []
  cachesInWindow := false
  cachesThrows := false
  cacheNames := []
  indexedDBInWindow := false
  databasesThrows := false
  dbNames := []
  localStorageThrows := false
  sessionStorageThrows := false
  localStorageKV := []
  sessionStorageKV := []
  windowGc := false

/-- Is this a `disconnect()` call on a managed device? -/
def Event.isDisconnectCall : Event → Bool
| .disconnectCall _ => true
| _ => false

/-- Is this a `forgetDevice()` call on a managed device? -/
def Event.isForgetCall : Event → Bool
| .forgetCall _ => true
| _ => false

/-- Is this one of the per-device 500ms settle waits of step 1? -/
def Event.isSettle : Event → Bool
| .settle500 _ => true
| _ => false

/-- Events of steps 4 and 5 (scheduler cleanup, final settle). -/
def Event.tailish : Event → Bool
| .clearTimeouts => true
| .gcCall => true
| .settle1000 => true
| _ => false

/-- Environment with exactly two devices connected and no faults. -/
def envTwoConnected : Env :=
  { baseEnv with
    connected := fun r =>
      match r with
      | .controllable => true
      | .heartRateMonitor => true
      | _ => false }

/-- Environment where the heart-rate monitor and power meter are
connected, the heart-rate monitor's `disconnect()` throws and the power
meter's `forgetDevice()` throws. -/
def envFaulty : Env :=
  { baseEnv with
    connected := fun r =>
      match r with
      | .heartRateMonitor => true
      | .powerMeter => true
      | _ => false
    disconnectThrows := fun r =>
      match r with
      | .heartRateMonitor => true
      | _ => false
    forgetThrows := fun r =>
      match r with
      | .powerMeter => true
      | _ => false }

/-- Environment where the service-worker cache purge fails while the
later sub-steps would have work to do. -/
def envCachesFail : Env :=
  { baseEnv with
    cachesInWindow := true
    cachesThrows := true
    cacheNames := ["app-cache"]
    indexedDBInWindow := true
    dbNames := ["ble-db"]
    localStorageKV := [("bluetoothKey", "v"), ("other", "w")] }

/-- Environment where the IndexedDB enumeration fails but the storage
purge still has work to do. -/
def envIdbFail : Env :=
  { baseEnv with
    indexedDBInWindow := true
    databasesThrows := true
    localStorageKV := [("bluetoothKey", "v"), ("other", "w")]
    sessionStorageKV := [("myDeviceId", "x"), ("keep", "y")] }

/-- Environment with populated storages and all sweep sub-steps healthy. -/
def envStores : Env :=
  { baseEnv with
    localStorageKV := [("bluetoothKey", "v"), ("other", "w")]
    sessionStorageKV := [("myDeviceId", "x"), ("keep", "y")] }

/-- The spec's three-device test registry (test double for the end-to-end
scenario of the spec, exercised through the registry-parametric
`clearForDevices`). -/
def registryThree : List DeviceInstance :=
  [ ⟨.heartRateMonitor, "heartRateMonitor"⟩
  , ⟨.powerMeter, "powerMeter"⟩
  , ⟨.speedCadenceSensor, "speedCadenceSensor"⟩ ]

/-- Environment for the end-to-end scenario: of the three devices in
`registryThree`, two are connected, one is not; no faults. -/
def envThree : Env :=
  { baseEnv with
    connected := fun r =>
      match r with
      | .heartRateMonitor => true
      | .powerMeter => true
      | _ => false }

lemma mem_phase1Events {env : Env} {d : DeviceInstance} {e : Event}
    (h : e ∈ phase1Events env d) : e.phase1ish = true := by
  unfold phase1Events at h
  split_ifs at h <;> simp at h <;> (try casesm* _ ∨ _) <;> subst_vars <;> rfl

lemma mem_phase2Events {env : Env} {d : DeviceInstance} {e : Event}
    (h : e ∈ phase2Events env d) : e.phase2ish = true := by
  unfold phase2Events at h
  split_ifs at h <;> simp at h <;> (try casesm* _ ∨ _) <;> subst_vars <;> rfl

lemma mem_cachedDeviceEvents {cd : CachedDevice} {e : Event}
    (h : e ∈ cachedDeviceEvents cd) : e.sweepish = true := by
  unfold cachedDeviceEvents at h
  split_ifs at h <;> simp at h <;> (try casesm* _ ∨ _) <;> subst_vars <;> rfl

lemma mem_sweepRecordsEvents {env : Env} {e : Event}
    (h : e ∈ sweepRecordsEvents env) : e.sweepish = true := by
  unfold sweepRecordsEvents at h
  split_ifs at h
  · rcases List.mem_flatten.mp h with ⟨s, hs, hes⟩
    rcases List.mem_map.mp hs with ⟨cd, _, rfl⟩
    exact mem_cachedDeviceEvents hes
  · simp at h

lemma mem_sweepCachesEvents {env : Env} {e : Event}
    (h : e ∈ sweepCachesEvents env) : e.sweepish = true := by
  unfold sweepCachesEvents at h
  split_ifs at h
  · rcases List.mem_map.mp h with ⟨nm, _, rfl⟩; rfl
  · simp at h

lemma mem_sweepIdbEvents {env : Env} {e : Event}
    (h : e ∈ sweepIdbEvents env) : e.sweepish = true := by
  unfold sweepIdbEvents at h
  split_ifs at h
  · simp at h; subst_vars; rfl
  · rcases List.mem_map.mp h with ⟨nm, _, rfl⟩; rfl
  · simp at h

lemma mem_purgeEvents_ls {store : List (String × String)} {e : Event}
    (h : e ∈ purgeEvents store Event.lsRemove) : e.sweepish = true := by
  rcases List.mem_map.mp h with ⟨k, _, rfl⟩; rfl

lemma mem_purgeEvents_ss {store : List (String × String)} {e : Event}
    (h : e ∈ purgeEvents store Event.ssRemove) : e.sweepish = true := by
  rcases List.mem_map.mp h with ⟨k, _, rfl⟩; rfl

lemma mem_sweep {env : Env} {e : Event} (h : e ∈ (sweep env).1) :
    e.sweepish = true := by
  unfold sweep at h
  split_ifs at h <;> simp only [List.mem_append, List.mem_singleton] at h
  · subst_vars; rfl
  · rcases h with h | h
    · exact mem_sweepRecordsEvents h
    · subst_vars; rfl
  · rcases h with ((h | h) | h) | h
    · exact mem_sweepRecordsEvents h
    · exact mem_sweepCachesEvents h
    · exact mem_sweepIdbEvents h
    · subst_vars; rfl
  · rcases h with (((h | h) | h) | h) | h
    · exact mem_sweepRecordsEvents h
    · exact mem_sweepCachesEvents h
    · exact mem_sweepIdbEvents h
    · exact mem_purgeEvents_ls h
    · subst_vars; rfl
  · rcases h with (((h | h) | h) | h) | h
    · exact mem_sweepRecordsEvents h
    · exact mem_sweepCachesEvents h
    · exact mem_sweepIdbEvents h
    · exact mem_purgeEvents_ls h
    · exact mem_purgeEvents_ss h

lemma mem_flatten_phase1 {env : Env} {l : List DeviceInstance} {e : Event}
    (h : e ∈ (l.map (phase1Events env)).flatten) : e.phase1ish = true := by
  rcases List.mem_flatten.mp h with ⟨s, hs, hes⟩
  rcases List.mem_map.mp hs with ⟨d, _, rfl⟩
  exact mem_phase1Events hes

lemma mem_flatten_phase2 {env : Env} {l : List DeviceInstance} {e : Event}
    (h : e ∈ (l.map (phase2Events env)).flatten) : e.phase2ish = true := by
  rcases List.mem_flatten.mp h with ⟨s, hs, hes⟩
  rcases List.mem_map.mp hs with ⟨d, _, rfl⟩
  exact mem_phase2Events hes

lemma mem_tail_events {env : Env} {e : Event}
    (h : e ∈ [Event.clearTimeouts]
      ++ (if env.windowGc then [Event.gcCall] else []) ++ [Event.settle1000]) :
    e.tailish = true := by
  split_ifs at h <;> simp at h <;> (try casesm* _ ∨ _) <;> subst_vars <;> rfl

/-- The trace of a run with a non-empty target set, laid out phase by
phase. -/
lemma trace_eq (env : Env) (dt : JSVal)
    (h : (devicesToClear allDevices dt).length ≠ 0) :
    (clearBluetoothCacheForDevice env dt).trace =
      ((devicesToClear allDevices dt).map (phase1Events env)).flatten
      ++ (((devicesToClear allDevices dt).map (phase2Events env)).flatten
      ++ ((sweep env).1
      ++ (([Event.clearTimeouts] ++ (if env.windowGc then [Event.gcCall] else []))
      ++ [Event.settle1000]))) := by
  unfold clearBluetoothCacheForDevice clearForDevices
  simp only [if_neg h, List.append_assoc]

/-- Registry-parametric version of `trace_eq`. -/
lemma trace_eq' (env : Env) (devices : List DeviceInstance) (dt : JSVal)
    (h : (devicesToClear devices dt).length ≠ 0) :
    (clearForDevices env devices dt).trace =
      ((devicesToClear devices dt).map (phase1Events env)).flatten
      ++ (((devicesToClear devices dt).map (phase2Events env)).flatten
      ++ ((sweep env).1
      ++ (([Event.clearTimeouts] ++ (if env.windowGc then [Event.gcCall] else []))
      ++ [Event.settle1000]))) := by
  unfold clearForDevices
  simp only [if_neg h, List.append_assoc]

lemma count_zero_of_classifier {l : List Event} {cls : Event → Bool}
    (hl : ∀ e ∈ l, cls e = true) {e : Event} (he : cls e = false) :
    l.count e = 0 :=
  List.count_eq_zero.mpr (fun hm => by rw [hl e hm] at he; cases he)

/-- Count an event across a fan-out phase when each device contributes it
zero or one time, depending on a per-device predicate. -/
lemma count_flatten_filter (f : DeviceInstance → List Event)
    (p : DeviceInstance → Bool) (e : Event) (l : List DeviceInstance)
    (hf : ∀ d, (f d).count e = if p d then 1 else 0) :
    ((l.map f).flatten).count e = (l.filter p).length := by
  induction l with
  | nil => rfl
  | cons d t ih =>
      simp only [List.map_cons, List.flatten_cons, List.count_append, ih,
        hf d, List.filter_cons]
      by_cases hp : p d = true <;> simp [hp, Nat.add_comm]

lemma count_phase1_disconnectCall (env : Env) (d : DeviceInstance)
    (r : DeviceRole) :
    (phase1Events env d).count (Event.disconnectCall r) =
      if (d.drole == r && env.connected d.drole) = true then 1 else 0 := by
  unfold phase1Events
  by_cases hr : d.drole = r <;> split_ifs <;>
    simp_all [List.count_cons, List.count_nil]

lemma count_phase1_settle (env : Env) (d : DeviceInstance) (r : DeviceRole) :
    (phase1Events env d).count (Event.settle500 r) =
      if (d.drole == r && env.connected d.drole
          && !env.disconnectThrows d.drole) = true then 1 else 0 := by
  unfold phase1Events
  by_cases hr : d.drole = r <;> split_ifs <;>
    simp_all [List.count_cons, List.count_nil]

lemma count_phase2_forgetCall (env : Env) (d : DeviceInstance)
    (r : DeviceRole) :
    (phase2Events env d).count (Event.forgetCall r) =
      if (d.drole == r) = true then 1 else 0 := by
  unfold phase2Events
  by_cases hr : d.drole = r <;> split_ifs <;>
    simp_all [List.count_cons, List.count_nil]

/-- Count an event over the whole run when only step-1 wrappers can emit
it: one occurrence per target satisfying `p`. -/
lemma run_count_phase1 (env : Env) (dt : JSVal) (e : Event)
    (p : DeviceInstance → Bool)
    (hph1 : ∀ d, (phase1Events env d).count e = if p d then 1 else 0)
    (h2 : e.phase2ish = false) (hsw : e.sweepish = false)
    (ht : e.tailish = false) (hw : e ≠ Event.warnNoDevices) :
    (clearBluetoothCacheForDevice env dt).trace.count e =
      ((devicesToClear allDevices dt).filter p).length := by
  by_cases h : (devicesToClear allDevices dt).length = 0
  · rw [List.length_eq_zero.mp h]
    unfold clearBluetoothCacheForDevice clearForDevices
    rw [List.length_eq_zero.mp h]
    simp [List.count_cons, Ne.symm hw]
  · rw [trace_eq env dt h, List.count_append,
      count_flatten_filter _ _ _ _ hph1]
    have hz : (((devicesToClear allDevices dt).map (phase2Events env)).flatten
        ++ ((sweep env).1
        ++ (([Event.clearTimeouts] ++ (if env.windowGc then [Event.gcCall] else []))
        ++ [Event.settle1000]))).count e = 0 := by
      refine List.count_eq_zero.mpr (fun hm => ?_)
      rcases List.mem_append.mp hm with hx | hx
      · rw [mem_flatten_phase2 hx] at h2; cases h2
      · rcases List.mem_append.mp hx with hy | hy
        · rw [mem_sweep hy] at hsw; cases hsw
        · rw [mem_tail_events hy] at ht; cases ht
    rw [hz]
    omega

/-- Count an event over the whole run when only step-2 wrappers can emit
it. -/
lemma run_count_phase2 (env : Env) (dt : JSVal) (e : Event)
    (p : DeviceInstance → Bool)
    (hph2 : ∀ d, (phase2Events env d).count e = if p d then 1 else 0)
    (h1 : e.phase1ish = false) (hsw : e.sweepish = false)
    (ht : e.tailish = false) (hw : e ≠ Event.warnNoDevices) :
    (clearBluetoothCacheForDevice env dt).trace.count e =
      ((devicesToClear allDevices dt).filter p).length := by
  by_cases h : (devicesToClear allDevices dt).length = 0
  · rw [List.length_eq_zero.mp h]
    unfold clearBluetoothCacheForDevice clearForDevices
    rw [List.length_eq_zero.mp h]
    simp [List.count_cons, Ne.symm hw]
  · rw [trace_eq env dt h, List.count_append,
      count_zero_of_classifier (fun x hx => mem_flatten_phase1 hx) h1,
      List.count_append, count_flatten_filter _ _ _ _ hph2]
    have hz : ((sweep env).1
        ++ (([Event.clearTimeouts] ++ (if env.windowGc then [Event.gcCall] else []))
        ++ [Event.settle1000])).count e = 0 := by
      refine List.count_eq_zero.mpr (fun hm => ?_)
      rcases List.mem_append.mp hm with hy | hy
      · rw [mem_sweep hy] at hsw; cases hsw
      · rw [mem_tail_events hy] at ht; cases ht
    rw [hz]
    omega

/-- If everything in the left part satisfies only `p`-events and the right
part none, a `p`-event's index is below a `q`-event's index. -/
lemma index_lt_of_append (l₁ l₂ : List Event) (p q : Event → Bool)
    (h₁ : ∀ e ∈ l₂, p e = false) (h₂ : ∀ e ∈ l₁, q e = false)
    {i j : ℕ} {x y : Event} (hx : (l₁ ++ l₂)[i]? = some x)
    (hy : (l₁ ++ l₂)[j]? = some y)
    (hpx : p x = true) (hqy : q y = true) : i < j := by
  have hi : i < l₁.length := by
    by_contra hge
    push_neg at hge
    rw [List.getElem?_append_right hge] at hx
    rw [h₁ x (List.getElem?_mem hx)] at hpx
    cases hpx
  have hj : l₁.length ≤ j := by
    by_contra hlt
    push_neg at hlt
    rw [List.getElem?_append_left hlt] at hy
    rw [h₂ y (List.getElem?_mem hy)] at hqy
    cases hqy
  omega

/-- Folding `removeItem` over a key list filters out exactly those keys. -/
lemma foldl_removeItem (ks : List String) (store : List (String × String)) :
    ks.foldl removeItem store =
      store.filter (fun kv => !(ks.contains kv.1)) := by
  induction ks generalizing store with
  | nil => simp
  | cons k t ih =>
      rw [List.foldl_cons, ih]
      unfold removeItem
      rw [List.filter_filter]
      apply List.filter_congr
      intro kv _
      by_cases h : kv.1 = k <;> simp [h]

/-- The storage purge keeps exactly the entries whose key is not
BLE-related. -/
lemma purgeStore_eq (store : List (String × String)) :
    purgeStore store = store.filter (fun kv => !(isBleKey kv.1)) := by
  unfold purgeStore
  rw [foldl_removeItem]
  apply List.filter_congr
  intro kv hkv
  show (!(((store.map Prod.fst).filter isBleKey).elem kv.1)) = !(isBleKey kv.1)
  by_cases h : isBleKey kv.1 = true
  · have hm : kv.1 ∈ (store.map Prod.fst).filter isBleKey :=
      List.mem_filter.mpr ⟨List.mem_map_of_mem Prod.fst hkv, h⟩
    rw [h, List.elem_iff.mpr hm]
  · simp only [Bool.not_eq_true] at h
    have hm : ((store.map Prod.fst).filter isBleKey).elem kv.1 = false := by
      rcases Bool.eq_false_or_eq_true (((store.map Prod.fst).filter isBleKey).elem kv.1)
        with he | he
      · rw [(List.mem_filter.mp (List.elem_iff.mp he)).2] at h
        cases h
      · exact he
    rw [h, hm]

/-- The final localStorage of a run is the original or the purged one. -/
lemma run_ls_cases (env : Env) (dt : JSVal) :
    (clearBluetoothCacheForDevice env dt).localStorageKV = env.localStorageKV ∨
    (clearBluetoothCacheForDevice env dt).localStorageKV =
      purgeStore env.localStorageKV := by
  unfold clearBluetoothCacheForDevice clearForDevices sweep
  split_ifs <;> simp <;> split_ifs <;> simp

/-- The final sessionStorage of a run is the original or the purged one. -/
lemma run_ss_cases (env : Env) (dt : JSVal) :
    (clearBluetoothCacheForDevice env dt).sessionStorageKV = env.sessionStorageKV ∨
    (clearBluetoothCacheForDevice env dt).sessionStorageKV =
      purgeStore env.sessionStorageKV := by
  unfold clearBluetoothCacheForDevice clearForDevices sweep
  split_ifs <;> simp <;> split_ifs <;> simp

/-- On the healthy path (no failure in the unguarded sub-steps, no storage
failure), the sweep purges both storages and runs every sub-step. -/
lemma sweep_healthy (env : Env)
    (hg : (env.bluetoothInNavigator && env.getDevicesAvailable
            && env.getDevicesThrows) = false)
    (hc : (env.cachesInWindow && env.cachesThrows) = false)
    (hl : env.localStorageThrows = false)
    (hs : env.sessionStorageThrows = false) :
    sweep env =
      (sweepRecordsEvents env ++ sweepCachesEvents env ++ sweepIdbEvents env
        ++ purgeEvents env.localStorageKV Event.lsRemove
        ++ purgeEvents env.sessionStorageKV Event.ssRemove,
       purgeStore env.localStorageKV, purgeStore env.sessionStorageKV) := by
  unfold sweep
  rw [if_neg (by simp [hg]), if_neg (by simp [hc]), if_neg (by simp [hl]),
    if_neg (by simp [hs])]

/-- A run with targets always ends with the step-5 settle event. -/
lemma run_getLast (env : Env) (dt : JSVal)
    (h : (devicesToClear allDevices dt).length ≠ 0) :
    (clearBluetoothCacheForDevice env dt).trace.getLast? =
      some Event.settle1000 := by
  rw [trace_eq env dt h]
  cases hw : env.windowGc <;> simp [hw]

/-- With targets present, the final storages are the sweep's. -/
lemma run_storage_eq (env : Env) (dt : JSVal)
    (h : (devicesToClear allDevices dt).length ≠ 0) :
    (clearBluetoothCacheForDevice env dt).localStorageKV = (sweep env).2.1 ∧
    (clearBluetoothCacheForDevice env dt).sessionStorageKV = (sweep env).2.2 := by
  unfold clearBluetoothCacheForDevice clearForDevices
  simp only [if_neg h]
  constructor <;> trivial

/-- Nothing after the step-1 fan-in is a step-1 event. -/
lemma mem_rest_phase1ish_false {env : Env} {l : List DeviceInstance} {e : Event}
    (he : e ∈ (l.map (phase2Events env)).flatten
      ++ ((sweep env).1
      ++ (([Event.clearTimeouts] ++ (if env.windowGc then [Event.gcCall] else []))
      ++ [Event.settle1000]))) :
    e.phase1ish = false := by
  rcases List.mem_append.mp he with h | h
  · have := mem_flatten_phase2 h
    cases e <;> simp_all [Event.phase1ish, Event.phase2ish]
  · rcases List.mem_append.mp h with h | h
    · have := mem_sweep h
      cases e <;> simp_all [Event.phase1ish, Event.sweepish]
    · have := mem_tail_events h
      cases e <;> simp_all [Event.phase1ish, Event.tailish]

lemma isDisconnectCall_false_of_not_phase1 {e : Event}
    (h : e.phase1ish = false) : e.isDisconnectCall = false := by
  cases e <;> simp_all [Event.phase1ish, Event.isDisconnectCall]

lemma isSettle_false_of_not_phase1 {e : Event}
    (h : e.phase1ish = false) : e.isSettle = false := by
  cases e <;> simp_all [Event.phase1ish, Event.isSettle]

lemma isForgetCall_false_of_phase1 {e : Event}
    (h : e.phase1ish = true) : e.isForgetCall = false := by
  cases e <;> simp_all [Event.phase1ish, Event.isForgetCall]

/-- A target's `forgetDevice()` call is always in the trace, whatever
throws elsewhere. -/
lemma forget_mem_run (env : Env) (dt : JSVal) (d : DeviceInstance)
    (hd : d ∈ devicesToClear allDevices dt) :
    Event.forgetCall d.drole ∈ (clearBluetoothCacheForDevice env dt).trace := by
  have h : (devicesToClear allDevices dt).length ≠ 0 := by
    rw [Ne, List.length_eq_zero]
    exact List.ne_nil_of_mem hd
  rw [trace_eq env dt h]
  refine List.mem_append.mpr (Or.inr (List.mem_append.mpr (Or.inl ?_)))
  refine List.mem_flatten.mpr ⟨phase2Events env d, List.mem_map_of_mem _ hd, ?_⟩
  unfold phase2Events
  split_ifs <;> simp

/-- A connected target's `disconnect()` call is always in the trace. -/
lemma disconnect_mem_run (env : Env) (dt : JSVal) (d : DeviceInstance)
    (hd : d ∈ devicesToClear allDevices dt)
    (hc : env.connected d.drole = true) :
    Event.disconnectCall d.drole ∈ (clearBluetoothCacheForDevice env dt).trace := by
  have h : (devicesToClear allDevices dt).length ≠ 0 := by
    rw [Ne, List.length_eq_zero]
    exact List.ne_nil_of_mem hd
  rw [trace_eq env dt h]
  refine List.mem_append.mpr (Or.inl ?_)
  refine List.mem_flatten.mpr ⟨phase1Events env d, List.mem_map_of_mem _ hd, ?_⟩
  unfold phase1Events
  rw [if_pos hc]
  split_ifs <;> simp

/-- A connected target whose `disconnect()` throws gets the failure
logged. -/
lemma errorDisconnect_mem_run (env : Env) (dt : JSVal) (d : DeviceInstance)
    (hd : d ∈ devicesToClear allDevices dt)
    (hc : env.connected d.drole = true)
    (hthrow : env.disconnectThrows d.drole = true) :
    Event.errorDisconnect d.drole ∈ (clearBluetoothCacheForDevice env dt).trace := by
  have h : (devicesToClear allDevices dt).length ≠ 0 := by
    rw [Ne, List.length_eq_zero]
    exact List.ne_nil_of_mem hd
  rw [trace_eq env dt h]
  refine List.mem_append.mpr (Or.inl ?_)
  refine List.mem_flatten.mpr ⟨phase1Events env d, List.mem_map_of_mem _ hd, ?_⟩
  unfold phase1Events
  rw [if_pos hc, if_pos hthrow]
  simp

/-- Only a target's role can carry a `disconnect()` event. -/
lemma disconnect_only_targets {env : Env} {dt : JSVal} {r : DeviceRole}
    (hmem : Event.disconnectCall r ∈ (clearBluetoothCacheForDevice env dt).trace) :
    ∃ d ∈ devicesToClear allDevices dt, d.drole = r := by
  by_cases h : (devicesToClear allDevices dt).length = 0
  · exfalso
    unfold clearBluetoothCacheForDevice clearForDevices at hmem
    rw [List.length_eq_zero.mp h] at hmem
    simp at hmem
  · rw [trace_eq env dt h] at hmem
    rcases List.mem_append.mp hmem with hx | hx
    · rcases List.mem_flatten.mp hx with ⟨s, hs, hes⟩
      rcases List.mem_map.mp hs with ⟨d, hd, rfl⟩
      refine ⟨d, hd, ?_⟩
      unfold phase1Events at hes
      split_ifs at hes <;> simp_all
    · have := mem_rest_phase1ish_false hx
      simp [Event.phase1ish] at this

/-- Only a target's role can carry a `forgetDevice()` event. -/
lemma forget_only_targets {env : Env} {dt : JSVal} {r : DeviceRole}
    (hmem : Event.forgetCall r ∈ (clearBluetoothCacheForDevice env dt).trace) :
    ∃ d ∈ devicesToClear allDevices dt, d.drole = r := by
  by_cases h : (devicesToClear allDevices dt).length = 0
  · exfalso
    unfold clearBluetoothCacheForDevice clearForDevices at hmem
    rw [List.length_eq_zero.mp h] at hmem
    simp at hmem
  · rw [trace_eq env dt h] at hmem
    rcases List.mem_append.mp hmem with hx | hx
    · have := mem_flatten_phase1 hx
      simp [Event.phase1ish] at this
    · rcases List.mem_append.mp hx with hy | hy
      · rcases List.mem_flatten.mp hy with ⟨s, hs, hes⟩
        rcases List.mem_map.mp hs with ⟨d, hd, rfl⟩
        refine ⟨d, hd, ?_⟩
        unfold phase2Events at hes
        split_ifs at hes <;> simp_all
      · rcases List.mem_append.mp hy with hz | hz
        · have := mem_sweep hz
          simp [Event.sweepish] at this
        · have := mem_tail_events hz
          simp [Event.tailish] at this

/-- Requesting a concrete role resolves to exactly the one device of that
role. -/
lemma devicesToClear_role_map (r : DeviceRole) :
    (devicesToClear allDevices (JSVal.role r)).map DeviceInstance.drole = [r] := by
  cases r <;> rfl

lemma devicesToClear_role_len (r : DeviceRole) :
    (devicesToClear allDevices (JSVal.role r)).length = 1 := by
  cases r <;> rfl

/-- C1 counterexample: on a normal all-devices run the call's result is
the JS `undefined` value — the function returns void, it does not return
an aggregated per-target report. -/
theorem C1_counterexample :
    (clearBluetoothCacheForDevice envTwoConnected JSVal.null).result =
      JSVal.undef := by
  decide

/-- C1 (amended): `clearBluetoothCacheForDevice` always resolves with
`undefined` — no RecoveryReport value is constructed; per-target outcomes
are only logged.  With a non-empty target set the run still completes
through every phase, the final 1s settle wait being the last event of the
trace. -/
theorem C1_returns_undefined (env : Env) (dt : JSVal) :
    (clearBluetoothCacheForDevice env dt).result = JSVal.undef ∧
    ((devicesToClear allDevices dt).length ≠ 0 →
      (clearBluetoothCacheForDevice env dt).trace.getLast? =
        some Event.settle1000) := by
  constructor
  · by_cases h : (devicesToClear allDevices dt).length = 0
    · unfold clearBluetoothCacheForDevice clearForDevices
      rw [List.length_eq_zero.mp h]
      rfl
    · unfold clearBluetoothCacheForDevice clearForDevices
      simp only [if_neg h]
  · intro h
    exact run_getLast env dt h

/-- C1 witness. -/
theorem C1_returns_undefined_witness :
    (clearBluetoothCacheForDevice baseEnv JSVal.null).result = JSVal.undef ∧
    (clearBluetoothCacheForDevice baseEnv JSVal.null).trace.getLast? =
      some Event.settle1000 :=
  ⟨(C1_returns_undefined baseEnv JSVal.null).1,
   (C1_returns_undefined baseEnv JSVal.null).2 (by decide)⟩

/-- C2: in every run and for every pair of positions in the trace, a
`disconnect()` call precedes every `forgetDevice()` call — phase 2 never
starts before every step-1 wrapper has settled (the `Promise.all`
barrier). -/
theorem C2_disconnects_before_forgets (env : Env) (dt : JSVal)
    {i j : ℕ} {r r' : DeviceRole}
    (hi : (clearBluetoothCacheForDevice env dt).trace[i]? =
      some (Event.disconnectCall r))
    (hj : (clearBluetoothCacheForDevice env dt).trace[j]? =
      some (Event.forgetCall r')) :
    i < j := by
  by_cases h : (devicesToClear allDevices dt).length = 0
  · exfalso
    unfold clearBluetoothCacheForDevice clearForDevices at hi
    rw [List.length_eq_zero.mp h] at hi
    have hm := List.getElem?_mem hi
    simp at hm
  · rw [trace_eq env dt h] at hi hj
    exact index_lt_of_append _ _ Event.isDisconnectCall Event.isForgetCall
      (fun e he => isDisconnectCall_false_of_not_phase1
        (mem_rest_phase1ish_false he))
      (fun e he => isForgetCall_false_of_phase1 (mem_flatten_phase1 he))
      hi hj rfl rfl

/-- C2 witness. -/
theorem C2_disconnects_before_forgets_witness : (0 : ℕ) < 4 :=
  @C2_disconnects_before_forgets envTwoConnected JSVal.null 0 4
    DeviceRole.controllable DeviceRole.controllable (by decide) (by decide)

/-- C3: per-target fault isolation — whatever subset of devices throws,
every target that is connected still gets its `disconnect()` call, every
target still gets its `forgetDevice()` call in step 2, a throwing
`disconnect()` is caught and logged, and the run completes through the
final settle event (no exception reaches the caller). -/
theorem C3_fault_isolation (env : Env) (dt : JSVal) (d : DeviceInstance)
    (hd : d ∈ devicesToClear allDevices dt) :
    (env.connected d.drole = true →
      Event.disconnectCall d.drole ∈ (clearBluetoothCacheForDevice env dt).trace) ∧
    Event.forgetCall d.drole ∈ (clearBluetoothCacheForDevice env dt).trace ∧
    (env.connected d.drole = true → env.disconnectThrows d.drole = true →
      Event.errorDisconnect d.drole ∈ (clearBluetoothCacheForDevice env dt).trace) ∧
    (clearBluetoothCacheForDevice env dt).trace.getLast? =
      some Event.settle1000 := by
  have h : (devicesToClear allDevices dt).length ≠ 0 := by
    rw [Ne, List.length_eq_zero]
    exact List.ne_nil_of_mem hd
  exact ⟨fun hc => disconnect_mem_run env dt d hd hc,
    forget_mem_run env dt d hd,
    fun hc ht => errorDisconnect_mem_run env dt d hd hc ht,
    run_getLast env dt h⟩

/-- C3 witness: in `envFaulty` the heart-rate monitor's `disconnect()`
throws; its failure is logged, its `forgetDevice()` still runs, and the
run completes. -/
theorem C3_fault_isolation_witness :
    Event.disconnectCall DeviceRole.heartRateMonitor ∈
      (clearBluetoothCacheForDevice envFaulty JSVal.null).trace ∧
    Event.forgetCall DeviceRole.heartRateMonitor ∈
      (clearBluetoothCacheForDevice envFaulty JSVal.null).trace ∧
    Event.errorDisconnect DeviceRole.heartRateMonitor ∈
      (clearBluetoothCacheForDevice envFaulty JSVal.null).trace ∧
    (clearBluetoothCacheForDevice envFaulty JSVal.null).trace.getLast? =
      some Event.settle1000 := by
  have h := C3_fault_isolation envFaulty JSVal.null
    ⟨DeviceRole.heartRateMonitor, "heartRateMonitor"⟩ (by decide)
  exact ⟨h.1 rfl, h.2.1, h.2.2.1 rfl rfl, h.2.2.2⟩

/-- C4 counterexample: a no-match request returns exactly the same
caller-visible value as a normal run over all devices — `undefined` in
both cases — so no `NoMatchingDevice` condition distinct from anything
else is reported to the caller. -/
theorem C4_counterexample :
    (clearBluetoothCacheForDevice envTwoConnected (JSVal.str "rower")).result =
      (clearBluetoothCacheForDevice envTwoConnected JSVal.null).result ∧
    (clearBluetoothCacheForDevice envTwoConnected (JSVal.str "rower")).result =
      JSVal.undef := by
  constructor <;> decide

/-- C4 (amended): when a truthy request matches no registered device the
function logs a warning and returns early with zero side effects — the
trace holds only the warning, the storages are untouched — but the
returned value is `undefined`, identical to a successful run; the
condition is observable only in the log. -/
theorem C4_no_match_no_side_effects (env : Env) (v : JSVal)
    (_hv : v.truthy = true)
    (h : devicesToClear allDevices v = []) :
    (clearBluetoothCacheForDevice env v).trace = [Event.warnNoDevices] ∧
    (clearBluetoothCacheForDevice env v).result = JSVal.undef ∧
    (clearBluetoothCacheForDevice env v).localStorageKV = env.localStorageKV ∧
    (clearBluetoothCacheForDevice env v).sessionStorageKV =
      env.sessionStorageKV := by
  unfold clearBluetoothCacheForDevice clearForDevices
  rw [h]
  exact ⟨rfl, rfl, rfl, rfl⟩

/-- C4 witness. -/
theorem C4_no_match_no_side_effects_witness :
    (clearBluetoothCacheForDevice envTwoConnected (JSVal.str "rower")).trace =
      [Event.warnNoDevices] ∧
    (clearBluetoothCacheForDevice envTwoConnected (JSVal.str "rower")).result =
      JSVal.undef ∧
    (clearBluetoothCacheForDevice envTwoConnected
      (JSVal.str "rower")).localStorageKV = envTwoConnected.localStorageKV ∧
    (clearBluetoothCacheForDevice envTwoConnected
      (JSVal.str "rower")).sessionStorageKV =
        envTwoConnected.sessionStorageKV :=
  C4_no_match_no_side_effects envTwoConnected (JSVal.str "rower")
    (by decide) (by decide)

/-- C5 counterexample: with two connected devices the run contains two
500ms settle events, not a single one, and the first settle wait sits in
the trace before the second device's `disconnect()` call — the wait is a
per-device wait inside phase 1, not a barrier after all disconnects
settle. -/
theorem C5_counterexample :
    (clearBluetoothCacheForDevice envTwoConnected JSVal.null).trace.countP
      Event.isSettle = 2 ∧
    (clearBluetoothCacheForDevice envTwoConnected JSVal.null).trace[1]? =
      some (Event.settle500 DeviceRole.controllable) ∧
    (clearBluetoothCacheForDevice envTwoConnected JSVal.null).trace[2]? =
      some (Event.disconnectCall DeviceRole.heartRateMonitor) := by
  refine ⟨by decide, by decide, by decide⟩

/-- C5 (amended): each connected target whose `disconnect()` resolves
waits its own 500ms inside step 1 (the wait is skipped when the
disconnect throws, and absent for disconnected targets); there is no
single between-phase settle wait, but every 500ms wait still settles
before any `forgetDevice()` call, because step 2 starts only after the
step-1 `Promise.all` barrier. -/
theorem C5_settle_is_per_device (env : Env) (dt : JSVal) (r : DeviceRole) :
    (clearBluetoothCacheForDevice env dt).trace.count (Event.settle500 r) =
      ((devicesToClear allDevices dt).filter
        (fun d => d.drole == r && env.connected d.drole
          && !env.disconnectThrows d.drole)).length ∧
    (∀ i j : ℕ, ∀ r₁ r₂ : DeviceRole,
      (clearBluetoothCacheForDevice env dt).trace[i]? =
        some (Event.settle500 r₁) →
      (clearBluetoothCacheForDevice env dt).trace[j]? =
        some (Event.forgetCall r₂) →
      i < j) := by
  constructor
  · exact run_count_phase1 env dt (Event.settle500 r) _
      (fun d => count_phase1_settle env d r) rfl rfl rfl (by simp)
  · intro i j r₁ r₂ hi hj
    by_cases h : (devicesToClear allDevices dt).length = 0
    · exfalso
      unfold clearBluetoothCacheForDevice clearForDevices at hi
      rw [List.length_eq_zero.mp h] at hi
      have hm := List.getElem?_mem hi
      simp at hm
    · rw [trace_eq env dt h] at hi hj
      exact index_lt_of_append _ _ Event.isSettle Event.isForgetCall
        (fun e he => isSettle_false_of_not_phase1
          (mem_rest_phase1ish_false he))
        (fun e he => isForgetCall_false_of_phase1 (mem_flatten_phase1 he))
        hi hj rfl rfl

/-- C5 witness. -/
theorem C5_settle_is_per_device_witness :
    (clearBluetoothCacheForDevice envTwoConnected JSVal.null).trace.count
        (Event.settle500 DeviceRole.controllable) =
      ((devicesToClear allDevices JSVal.null).filter
        (fun d => d.drole == DeviceRole.controllable
          && envTwoConnected.connected d.drole
          && !envTwoConnected.disconnectThrows d.drole)).length ∧
    (1 : ℕ) < 4 :=
  ⟨(C5_settle_is_per_device envTwoConnected JSVal.null
      DeviceRole.controllable).1,
   (C5_settle_is_per_device envTwoConnected JSVal.null
      DeviceRole.controllable).2 1 4 DeviceRole.controllable
      DeviceRole.controllable (by decide) (by decide)⟩

/-- C6 counterexample: in `envCachesFail` the service-worker cache purge
fails; the failure is caught only by the phase-level boundary
(`warnStep3`), and the remaining sub-steps are skipped — the matching
IndexedDB database is not deleted and the matching localStorage key is
not removed.  The sub-step does not have its own failure boundary. -/
theorem C6_counterexample :
    Event.warnStep3 ∈
      (clearBluetoothCacheForDevice envCachesFail JSVal.null).trace ∧
    Event.dbDelete "ble-db" ∉
      (clearBluetoothCacheForDevice envCachesFail JSVal.null).trace ∧
    (clearBluetoothCacheForDevice envCachesFail JSVal.null).localStorageKV =
      [("bluetoothKey", "v"), ("other", "w")] := by
  refine ⟨by decide, by decide, by decide⟩

/-- C6 (amended): the per-record handling, the IndexedDB sub-step and the
persisted-key purge each have their own failure boundary, but the
`getDevices()` enumeration and the service-worker cache purge are guarded
only by the phase-level boundary, whose triggering skips the remaining
sub-steps.  In particular a failing IndexedDB enumeration is logged
(`warnIdb`) and the storage purge still runs, and the run still completes
through the final settle event. -/
theorem C6_substep_isolation (env : Env) (dt : JSVal)
    (h1 : env.indexedDBInWindow = true) (h2 : env.databasesThrows = true)
    (hg : (env.bluetoothInNavigator && env.getDevicesAvailable
            && env.getDevicesThrows) = false)
    (hc : (env.cachesInWindow && env.cachesThrows) = false)
    (hl : env.localStorageThrows = false)
    (hs : env.sessionStorageThrows = false)
    (hne : (devicesToClear allDevices dt).length ≠ 0) :
    Event.warnIdb ∈ (clearBluetoothCacheForDevice env dt).trace ∧
    (clearBluetoothCacheForDevice env dt).localStorageKV =
      purgeStore env.localStorageKV ∧
    (clearBluetoothCacheForDevice env dt).sessionStorageKV =
      purgeStore env.sessionStorageKV ∧
    (clearBluetoothCacheForDevice env dt).trace.getLast? =
      some Event.settle1000 := by
  have hsw := sweep_healthy env hg hc hl hs
  have hidb : Event.warnIdb ∈ (sweep env).1 := by
    rw [hsw]
    have : Event.warnIdb ∈ sweepIdbEvents env := by
      unfold sweepIdbEvents
      rw [if_pos h1, if_pos h2]
      simp
    simp only [List.mem_append]
    exact Or.inl (Or.inl (Or.inr this))
  refine ⟨?_, ?_, ?_, run_getLast env dt hne⟩
  · rw [trace_eq env dt hne]
    exact List.mem_append.mpr (Or.inr (List.mem_append.mpr
      (Or.inr (List.mem_append.mpr (Or.inl hidb)))))
  · rw [(run_storage_eq env dt hne).1, hsw]
  · rw [(run_storage_eq env dt hne).2, hsw]

/-- C6 witness. -/
theorem C6_substep_isolation_witness :
    Event.warnIdb ∈ (clearBluetoothCacheForDevice envIdbFail JSVal.null).trace ∧
    (clearBluetoothCacheForDevice envIdbFail JSVal.null).localStorageKV =
      purgeStore envIdbFail.localStorageKV ∧
    (clearBluetoothCacheForDevice envIdbFail JSVal.null).sessionStorageKV =
      purgeStore envIdbFail.sessionStorageKV ∧
    (clearBluetoothCacheForDevice envIdbFail JSVal.null).trace.getLast? =
      some Event.settle1000 :=
  C6_substep_isolation envIdbFail JSVal.null rfl rfl rfl rfl rfl rfl
    (by decide)

/-- C7: a run requested for one role touches only the device of that role
(any `disconnect()`/`forgetDevice()` event names that role), does touch
it (its forget call is always present), and the all-devices request
touches every registered device. -/
theorem C7_resolve_correctness (env : Env) (r r' : DeviceRole) :
    ((Event.disconnectCall r' ∈
        (clearBluetoothCacheForDevice env (JSVal.role r)).trace ∨
      Event.forgetCall r' ∈
        (clearBluetoothCacheForDevice env (JSVal.role r)).trace) → r' = r) ∧
    Event.forgetCall r ∈
      (clearBluetoothCacheForDevice env (JSVal.role r)).trace ∧
    Event.forgetCall r' ∈
      (clearBluetoothCacheForDevice env JSVal.null).trace := by
  have hrole : ∀ d ∈ devicesToClear allDevices (JSVal.role r), d.drole = r := by
    intro d hd
    have : d.drole ∈ (devicesToClear allDevices (JSVal.role r)).map
        DeviceInstance.drole := List.mem_map_of_mem _ hd
    rw [devicesToClear_role_map r] at this
    simpa using this
  refine ⟨?_, ?_, ?_⟩
  · rintro (hmem | hmem)
    · rcases disconnect_only_targets hmem with ⟨d, hd, rfl⟩
      exact hrole d hd
    · rcases forget_only_targets hmem with ⟨d, hd, rfl⟩
      exact hrole d hd
  · have hlen := devicesToClear_role_len r
    rcases hx : devicesToClear allDevices (JSVal.role r) with _ | ⟨d, rest⟩
    · rw [hx] at hlen; cases hlen
    · have hd : d ∈ devicesToClear allDevices (JSVal.role r) := by
        rw [hx]; exact List.mem_cons_self d rest
      have := forget_mem_run env (JSVal.role r) d hd
      rwa [hrole d hd] at this
  · cases r'
    · exact forget_mem_run env JSVal.null
        ⟨DeviceRole.controllable, "controllable"⟩ (by decide)
    · exact forget_mem_run env JSVal.null
        ⟨DeviceRole.heartRateMonitor, "heartRateMonitor"⟩ (by decide)
    · exact forget_mem_run env JSVal.null
        ⟨DeviceRole.powerMeter, "powerMeter"⟩ (by decide)
    · exact forget_mem_run env JSVal.null
        ⟨DeviceRole.speedCadenceSensor, "speedCadenceSensor"⟩ (by decide)
    · exact forget_mem_run env JSVal.null
        ⟨DeviceRole.moxy, "moxy"⟩ (by decide)
    · exact forget_mem_run env JSVal.null
        ⟨DeviceRole.coreTemp, "coreTemp"⟩ (by decide)

/-- C7 witness. -/
theorem C7_resolve_correctness_witness :
    DeviceRole.heartRateMonitor = DeviceRole.heartRateMonitor ∧
    Event.forgetCall DeviceRole.heartRateMonitor ∈
      (clearBluetoothCacheForDevice envTwoConnected
        (JSVal.role DeviceRole.heartRateMonitor)).trace ∧
    Event.forgetCall DeviceRole.powerMeter ∈
      (clearBluetoothCacheForDevice envTwoConnected JSVal.null).trace := by
  have h := C7_resolve_correctness envTwoConnected
    DeviceRole.heartRateMonitor DeviceRole.powerMeter
  exact ⟨(C7_resolve_correctness envTwoConnected DeviceRole.heartRateMonitor
      DeviceRole.heartRateMonitor).1 (Or.inr (by decide)),
    (C7_resolve_correctness envTwoConnected DeviceRole.heartRateMonitor
      DeviceRole.powerMeter).2.1, h.2.2⟩

/-- C8: step 1 calls `disconnect()` exactly on the targets whose
`isConnected()` is true (one call per such target), step 2 calls
`forgetDevice()` exactly once per target regardless of connection state;
instantiating the spec's end-to-end scenario on a three-device registry
with two connected devices gives exactly two disconnect calls and three
forget calls. -/
theorem C8_call_counts (env : Env) (dt : JSVal) (r : DeviceRole) :
    (clearBluetoothCacheForDevice env dt).trace.count
        (Event.disconnectCall r) =
      ((devicesToClear allDevices dt).filter
        (fun d => d.drole == r && env.connected d.drole)).length ∧
    (clearBluetoothCacheForDevice env dt).trace.count (Event.forgetCall r) =
      ((devicesToClear allDevices dt).filter
        (fun d => d.drole == r)).length ∧
    (clearForDevices envThree registryThree JSVal.null).trace.countP
      Event.isDisconnectCall = 2 ∧
    (clearForDevices envThree registryThree JSVal.null).trace.countP
      Event.isForgetCall = 3 := by
  refine ⟨?_, ?_, by decide, by decide⟩
  · exact run_count_phase1 env dt (Event.disconnectCall r) _
      (fun d => count_phase1_disconnectCall env d r) rfl rfl rfl (by simp)
  · exact run_count_phase2 env dt (Event.forgetCall r) _
      (fun d => count_phase2_forgetCall env d r) rfl rfl rfl (by simp)

/-- C9: the all-devices branch is selected by JS truthiness of the
argument: every falsy request value resolves the target set to the whole
six-device registry and behaves exactly like the default `null`
request. -/
theorem C9_falsy_selects_all (env : Env) (v : JSVal)
    (hv : v.truthy = false) :
    devicesToClear allDevices v = allDevices ∧
    allDevices.length = 6 ∧
    clearBluetoothCacheForDevice env v =
      clearBluetoothCacheForDevice env JSVal.null := by
  have h : devicesToClear allDevices v = allDevices := by
    unfold devicesToClear
    simp [hv]
  refine ⟨h, rfl, ?_⟩
  unfold clearBluetoothCacheForDevice clearForDevices
  rw [h]
  rfl

/-- C9 witness: the number 0 is falsy and resolves to all devices. -/
theorem C9_falsy_selects_all_witness :
    devicesToClear allDevices (JSVal.num 0) = allDevices ∧
    allDevices.length = 6 ∧
    clearBluetoothCacheForDevice baseEnv (JSVal.num 0) =
      clearBluetoothCacheForDevice baseEnv JSVal.null :=
  C9_falsy_selects_all baseEnv (JSVal.num 0) (by decide)

/-- C10: the persisted-key purge removes exactly the entries whose
lowercased key contains "bluetooth", "ble" or "device"; every other entry
of either store survives every run unchanged (value included), and on a
run where the purge sub-step executes without failure the final stores
are exactly the non-matching entries in order. -/
theorem C10_storage_purge (env : Env) (dt : JSVal) :
    (∀ kv ∈ env.localStorageKV, isBleKey kv.1 = false →
      kv ∈ (clearBluetoothCacheForDevice env dt).localStorageKV) ∧
    (∀ kv ∈ env.sessionStorageKV, isBleKey kv.1 = false →
      kv ∈ (clearBluetoothCacheForDevice env dt).sessionStorageKV) ∧
    ((env.bluetoothInNavigator && env.getDevicesAvailable
        && env.getDevicesThrows) = false →
      (env.cachesInWindow && env.cachesThrows) = false →
      env.localStorageThrows = false → env.sessionStorageThrows = false →
      (devicesToClear allDevices dt).length ≠ 0 →
      (clearBluetoothCacheForDevice env dt).localStorageKV =
        env.localStorageKV.filter (fun kv => !(isBleKey kv.1)) ∧
      (clearBluetoothCacheForDevice env dt).sessionStorageKV =
        env.sessionStorageKV.filter (fun kv => !(isBleKey kv.1))) := by
  refine ⟨?_, ?_, ?_⟩
  · intro kv hkv hble
    rcases run_ls_cases env dt with h | h
    · rw [h]; exact hkv
    · rw [h, purgeStore_eq]
      exact List.mem_filter.mpr ⟨hkv, by simp [hble]⟩
  · intro kv hkv hble
    rcases run_ss_cases env dt with h | h
    · rw [h]; exact hkv
    · rw [h, purgeStore_eq]
      exact List.mem_filter.mpr ⟨hkv, by simp [hble]⟩
  · intro hg hc hl hs hne
    have hsw := sweep_healthy env hg hc hl hs
    constructor
    · rw [(run_storage_eq env dt hne).1, hsw]
      simp [purgeStore_eq]
    · rw [(run_storage_eq env dt hne).2, hsw]
      simp [purgeStore_eq]

/-- C10 witness. -/
theorem C10_storage_purge_witness :
    ("other", "w") ∈ (clearBluetoothCacheForDevice envStores
      JSVal.null).localStorageKV ∧
    (clearBluetoothCacheForDevice envStores JSVal.null).localStorageKV =
      envStores.localStorageKV.filter (fun kv => !(isBleKey kv.1)) ∧
    (clearBluetoothCacheForDevice envStores JSVal.null).sessionStorageKV =
      envStores.sessionStorageKV.filter (fun kv => !(isBleKey kv.1)) := by
  have h := C10_storage_purge envStores JSVal.null
  have h3 := h.2.2 rfl rfl rfl rfl (by decide)
  exact ⟨h.1 ("other", "w") (by decide) (by decide), h3.1, h3.2⟩
